import Mathlib

/-!
Verification development for a small order-fulfillment backend
(`init_db.py` and `main.py`): a FastAPI + sqlite3 CRUD service over four
relations (customers, items, orders, item_list).

The database is embedded shallowly:
* the schema is a list of `(table name, column names)` entries, in creation
  order, as produced by the `CREATE TABLE IF NOT EXISTS` statements of
  `initialize_schema`;
* rows of each table are typed records mirroring the columns declared in
  `init_db.py`; the source's second, incompatible order-row shape
  (`customer_id, item_id, quantity`, used by the write path of `main.py`)
  is held in a separate `orders_flat` table that is only ever populated when
  an orders table with those columns exists (it never does under the schema
  `initialize_schema` provisions);
* every SQL statement first checks, as sqlite does when preparing it, that
  its table and every referenced column exist in the schema, and otherwise
  fails with an `operationalError`; the code never enables sqlite foreign-key
  enforcement (`PRAGMA foreign_keys` is off by default), so the FOREIGN KEY
  clauses of the schema impose nothing at run time;
* sqlite assigns a new `INTEGER PRIMARY KEY` rowid as one more than the
  largest id in the table (1 for an empty table): `maxId` below;
* `sqlite3.Rows` come back in rowid order, so a table's rows are a list in
  insertion order and `fetchone` is `List.find?`;
* an uncaught Python exception leaves the handler before `con.commit()`, so
  the uncommitted statements of that connection are rolled back: operations
  return the pair of an `Except` result and the resulting database, and on an
  exception the database handed back is the one from entry.
-/

/-- Failures surfaced by the handlers: `http s d` is
`HTTPException(status_code=s, detail=d)`; `operationalError` is
`sqlite3.OperationalError` (unknown table or column at statement prepare
time); `typeError` is the `TypeError` raised by subscripting the `None`
returned by a missed `fetchone()` in `populate_database`. -/
inductive Failure where
  | http (status : Nat) (detail : String)
  | operationalError (msg : String)
  | typeError (msg : String)
deriving DecidableEq, Repr

instance {ε α : Type} [DecidableEq ε] [DecidableEq α] : DecidableEq (Except ε α) :=
  fun x y =>
    match x, y with
    | .ok a, .ok b =>
      if h : a = b then .isTrue (by rw [h]) else .isFalse (fun he => h (Except.ok.inj he))
    | .error a, .error b =>
      if h : a = b then .isTrue (by rw [h]) else .isFalse (fun he => h (Except.error.inj he))
    | .ok _, .error _ => .isFalse (fun he => Except.noConfusion he)
    | .error _, .ok _ => .isFalse (fun he => Except.noConfusion he)

/-- A row of `customers(id INTEGER PRIMARY KEY, name, phone)`. -/
structure CustomerRow where
  id : Int
  name : String
  phone : String
deriving DecidableEq, Repr

/-- A row of `items(id INTEGER PRIMARY KEY, name, price REAL)`.
Prices are modelled as rationals. -/
structure ItemRow where
  id : Int
  name : String
  price : Rat
deriving DecidableEq, Repr

/-- A row of `orders(id INTEGER PRIMARY KEY, timestamp, cust_id, notes)`,
the shape `initialize_schema` creates. -/
structure OrderRow where
  id : Int
  timestamp : Option String
  cust_id : Int
  notes : Option String
deriving DecidableEq, Repr

/-- A row of the alternative orders shape `main.py` writes:
`orders(customer_id, item_id, quantity)`.  No table of this shape is ever
provisioned by `init_db.py`. -/
structure FlatOrderRow where
  id : Int
  customer_id : Int
  item_id : Int
  quantity : Int
deriving DecidableEq, Repr

/-- A row of `item_list(order_id, item_id)`. -/
structure LineRow where
  order_id : Int
  item_id : Int
deriving DecidableEq, Repr

/-- The sqlite database: the provisioned schema (table name and column
names, in creation order) and the rows of each table.  `orders` holds rows
of the shape `initialize_schema` declares, `orders_flat` rows of the flat
shape the `main.py` write path uses; at most one of the two can be backed by
an actual `orders` table, selected by the schema entry. -/
structure DB where
  schema : List (String × List String)
  customers : List CustomerRow
  items : List ItemRow
  orders : List OrderRow
  orders_flat : List FlatOrderRow
  item_list : List LineRow
deriving DecidableEq, Repr

def emptyDB : DB := ⟨[], [], [], [], [], []⟩

/-- Column list of a table in the schema, `none` when the table does not
exist. -/
def tableCols (db : DB) (t : String) : Option (List String) :=
  (db.schema.find? (fun p => p.1 == t)).map (·.2)

/-- sqlite's prepare-time check: the table exists and every referenced
column is one of its columns. -/
def hasCols (db : DB) (t : String) (cs : List String) : Bool :=
  match tableCols db t with
  | none => false
  | some cols => cs.all (fun c => cols.contains c)

def customersCols : List String := ["id", "name", "phone"]
def itemsCols : List String := ["id", "name", "price"]
def ordersCols : List String := ["id", "timestamp", "cust_id", "notes"]
def itemListCols : List String := ["order_id", "item_id"]

/-- One `CREATE TABLE IF NOT EXISTS` statement: a no-op when a table of
that name exists, otherwise appends the new table to the schema. -/
def createTableIfNotExists (t : String) (cs : List String) (db : DB) : DB :=
  if (db.schema.find? (fun p => p.1 == t)).isSome then db
  else { db with schema := db.schema ++ [(t, cs)] }

/-- `initialize_schema` of `init_db.py`: creates `customers`, `items`,
`orders`, `item_list` in that order, each only if absent, and touches no
data rows. -/
def initialize_schema (db : DB) : DB :=
  createTableIfNotExists "item_list" itemListCols
    (createTableIfNotExists "orders" ordersCols
      (createTableIfNotExists "items" itemsCols
        (createTableIfNotExists "customers" customersCols db)))

/-- Largest id in a list of ids, 0 for the empty list; sqlite assigns
`maxId + 1` as the next `INTEGER PRIMARY KEY` rowid. -/
def maxId (l : List Int) : Int := l.foldr max 0

def nextCustomerId (db : DB) : Int := maxId (db.customers.map (·.id)) + 1
def nextItemId (db : DB) : Int := maxId (db.items.map (·.id)) + 1
def nextOrderId (db : DB) : Int := maxId (db.orders.map (·.id)) + 1
def nextFlatOrderId (db : DB) : Int := maxId (db.orders_flat.map (·.id)) + 1

/-- The pydantic `Customer` request body of `main.py`. -/
structure Customer where
  name : String
  phone : String
deriving DecidableEq, Repr

/-- The pydantic `Item` request body of `main.py`. -/
structure Item where
  name : String
  price : Rat
deriving DecidableEq, Repr

/-- The pydantic `Order` request body of `main.py`
(the flat `customer_id, item_id, quantity` shape). -/
structure Order where
  customer_id : Int
  item_id : Int
  quantity : Int
deriving DecidableEq, Repr

/-- The pydantic `BulkOrder` request body of `main.py`. -/
structure BulkOrder where
  items : List Order
deriving DecidableEq, Repr

/-- `POST /customers`: `INSERT INTO customers (name, phone) VALUES (?, ?)`,
commit, and return `{id: lastrowid, name, phone}`.  No lookup, no
deduplication. -/
def create_customer (c : Customer) (db : DB) : Except Failure CustomerRow × DB :=
  if hasCols db "customers" ["name", "phone"] then
    let row : CustomerRow := ⟨nextCustomerId db, c.name, c.phone⟩
    (.ok row, { db with customers := db.customers ++ [row] })
  else
    (.error (.operationalError "customers: no such table or column"), db)

/-- `GET /customers/{customer_id}`: `SELECT * FROM customers WHERE id=?`,
`fetchone`, 404 when no row matches. -/
def read_customer (customer_id : Int) (db : DB) : Except Failure CustomerRow × DB :=
  if hasCols db "customers" ["id"] then
    match db.customers.find? (fun r => r.id == customer_id) with
    | some r => (.ok r, db)
    | none => (.error (.http 404 "Customer not found"), db)
  else
    (.error (.operationalError "customers: no such table or column"), db)

/-- `PUT /customers/{customer_id}`: `UPDATE customers SET name=?, phone=?
WHERE id=?`, commit, then 404 when `rowcount` is 0. -/
def update_customer (customer_id : Int) (c : Customer) (db : DB) :
    Except Failure CustomerRow × DB :=
  if hasCols db "customers" ["id", "name", "phone"] then
    let matched := db.customers.countP (fun r => r.id == customer_id)
    let upd := fun (r : CustomerRow) =>
      if r.id == customer_id then { r with name := c.name, phone := c.phone } else r
    let db' := { db with customers := db.customers.map upd }
    if matched == 0 then (.error (.http 404 "Customer not found"), db')
    else (.ok ⟨customer_id, c.name, c.phone⟩, db')
  else
    (.error (.operationalError "customers: no such table or column"), db)

/-- `DELETE /customers/{customer_id}`: `DELETE FROM customers WHERE id=?`,
commit, then 404 when `rowcount` is 0.  No cascade and no reference check. -/
def delete_customer (customer_id : Int) (db : DB) : Except Failure String × DB :=
  if hasCols db "customers" ["id"] then
    let matched := db.customers.countP (fun r => r.id == customer_id)
    let db' := { db with customers := db.customers.filter (fun r => !(r.id == customer_id)) }
    if matched == 0 then (.error (.http 404 "Customer not found"), db')
    else (.ok "Customer deleted successfully", db')
  else
    (.error (.operationalError "customers: no such table or column"), db)

/-- `POST /items`: `INSERT INTO items (name, price) VALUES (?, ?)`, commit,
return `{id: lastrowid, name, price}`.  No price validation of any kind. -/
def create_item (i : Item) (db : DB) : Except Failure ItemRow × DB :=
  if hasCols db "items" ["name", "price"] then
    let row : ItemRow := ⟨nextItemId db, i.name, i.price⟩
    (.ok row, { db with items := db.items ++ [row] })
  else
    (.error (.operationalError "items: no such table or column"), db)

/-- `GET /items/{item_id}`: `SELECT * FROM items WHERE id=?`, `fetchone`,
404 when no row matches. -/
def read_item (item_id : Int) (db : DB) : Except Failure ItemRow × DB :=
  if hasCols db "items" ["id"] then
    match db.items.find? (fun r => r.id == item_id) with
    | some r => (.ok r, db)
    | none => (.error (.http 404 "Item not found"), db)
  else
    (.error (.operationalError "items: no such table or column"), db)

/-- `PUT /items/{item_id}`: `UPDATE items SET name=?, price=? WHERE id=?`,
commit, then 404 when `rowcount` is 0.  No price validation. -/
def update_item (item_id : Int) (i : Item) (db : DB) : Except Failure ItemRow × DB :=
  if hasCols db "items" ["id", "name", "price"] then
    let matched := db.items.countP (fun r => r.id == item_id)
    let upd := fun (r : ItemRow) =>
      if r.id == item_id then { r with name := i.name, price := i.price } else r
    let db' := { db with items := db.items.map upd }
    if matched == 0 then (.error (.http 404 "Item not found"), db')
    else (.ok ⟨item_id, i.name, i.price⟩, db')
  else
    (.error (.operationalError "items: no such table or column"), db)

/-- `DELETE /items/{item_id}`: `DELETE FROM items WHERE id=?`, commit, then
404 when `rowcount` is 0.  No cascade and no reference check. -/
def delete_item (item_id : Int) (db : DB) : Except Failure String × DB :=
  if hasCols db "items" ["id"] then
    let matched := db.items.countP (fun r => r.id == item_id)
    let db' := { db with items := db.items.filter (fun r => !(r.id == item_id)) }
    if matched == 0 then (.error (.http 404 "Item not found"), db')
    else (.ok "Item deleted successfully", db')
  else
    (.error (.operationalError "items: no such table or column"), db)

/-- `POST /orders`: `INSERT INTO orders (customer_id, item_id, quantity)
VALUES (?, ?, ?)`, commit, return the row.  The statement references the
flat column shape; against a table lacking any of those columns it fails at
prepare time with `sqlite3.OperationalError` before anything is written.
No reference to `customers` or `items` is checked anywhere. -/
def create_order (o : Order) (db : DB) : Except Failure FlatOrderRow × DB :=
  if hasCols db "orders" ["customer_id", "item_id", "quantity"] then
    let row : FlatOrderRow := ⟨nextFlatOrderId db, o.customer_id, o.item_id, o.quantity⟩
    (.ok row, { db with orders_flat := db.orders_flat ++ [row] })
  else
    (.error (.operationalError "orders: no such column: customer_id"), db)

/-- The `GET /orders/{order_id}` response row:
`{id, customer_name, item_name, quantity}`. -/
structure OrderView where
  id : Int
  customer_name : String
  item_name : String
  quantity : Int
deriving DecidableEq, Repr

/-- `GET /orders/{order_id}`: a join of `orders` with `customers` on
`o.customer_id = c.id` and with `items` on `o.item_id = i.id`, then
`WHERE o.id=?`; 404 when the join yields no row.  The join references
`o.customer_id`, `o.item_id` and `o.quantity`, so against the provisioned
orders shape it fails at prepare time. -/
def read_order (order_id : Int) (db : DB) : Except Failure OrderView × DB :=
  if hasCols db "orders" ["id", "customer_id", "item_id", "quantity"]
      && hasCols db "customers" ["id", "name"] && hasCols db "items" ["id", "name"] then
    match db.orders_flat.find? (fun r => r.id == order_id) with
    | some o =>
      match db.customers.find? (fun c => c.id == o.customer_id),
            db.items.find? (fun i => i.id == o.item_id) with
      | some c, some i => (.ok ⟨o.id, c.name, i.name, o.quantity⟩, db)
      | _, _ => (.error (.http 404 "Order not found"), db)
    | none => (.error (.http 404 "Order not found"), db)
  else
    (.error (.operationalError "orders: no such column: customer_id"), db)

/-- `DELETE /orders/{order_id}`: `DELETE FROM orders WHERE id=?`, commit,
then 404 when `rowcount` is 0.  Only the `orders` table is touched: nothing
deletes from `item_list`, whose rows for the deleted order remain.  The
statement only references column `id`, which both order-table shapes have,
so it deletes from whichever shape backs the table. -/
def delete_order (order_id : Int) (db : DB) : Except Failure String × DB :=
  if hasCols db "orders" ["id"] then
    let matched := db.orders.countP (fun r => r.id == order_id)
      + db.orders_flat.countP (fun r => r.id == order_id)
    let db' := { db with
      orders := db.orders.filter (fun r => !(r.id == order_id)),
      orders_flat := db.orders_flat.filter (fun r => !(r.id == order_id)) }
    if matched == 0 then (.error (.http 404 "Order not found"), db')
    else (.ok "Order deleted successfully", db')
  else
    (.error (.operationalError "orders: no such table or column"), db)

/-- The insert loop of `POST /orders/bulk`: one
`INSERT INTO orders (customer_id, item_id, quantity)` per entry, no
validation of any kind; an `OperationalError` aborts the loop. -/
def bulkInsertLoop : List Order → DB → Except Failure DB
  | [], db => .ok db
  | o :: rest, db =>
    if hasCols db "orders" ["customer_id", "item_id", "quantity"] then
      let row : FlatOrderRow := ⟨nextFlatOrderId db, o.customer_id, o.item_id, o.quantity⟩
      bulkInsertLoop rest { db with orders_flat := db.orders_flat ++ [row] }
    else
      .error (.operationalError "orders: no such column: customer_id")

/-- `POST /orders/bulk`: runs the insert loop over every entry and commits
once afterwards; on an exception the commit is never reached, so the
uncommitted inserts are rolled back and the store is as at entry.  An empty
batch performs no insert and succeeds. -/
def create_bulk_order (b : BulkOrder) (db : DB) : Except Failure String × DB :=
  match bulkInsertLoop b.items db with
  | .ok db' =>
    (.ok ("Bulk order created with " ++ toString b.items.length ++ " items"), db')
  | .error e => (.error e, db)

/-- One `{name, price}` entry of an imported order record's `items`. -/
structure ImportItem where
  name : String
  price : Rat
deriving DecidableEq, Repr

/-- One record of the bulk-import JSON file:
`{phone, name, timestamp, notes?, items}`. -/
structure ImportRecord where
  phone : String
  name : String
  timestamp : String
  notes : Option String
  items : List ImportItem
deriving DecidableEq, Repr

/-- Python dict assignment `d[k] = v`: overwrites the value at an existing
key in place, otherwise appends the new key at the end. -/
def dictInsert (k : String) (v : α) : List (String × α) → List (String × α)
  | [] => [(k, v)]
  | (k', v') :: rest =>
    if k' == k then (k, v) :: rest else (k', v') :: dictInsert k v rest

/-- Building a Python dict from a sequence of `d[k] = v` assignments. -/
def buildDict (pairs : List (String × α)) : List (String × α) :=
  pairs.foldl (fun d kv => dictInsert kv.1 kv.2 d) []

/-- The `customers` dict of `populate_database`:
`customers[order['phone']] = order['name']` over every record. -/
def buildCustomersDict (records : List ImportRecord) : List (String × String) :=
  buildDict (records.map (fun r => (r.phone, r.name)))

/-- The `items` dict of `populate_database`:
`items[item['name']] = item['price']` over every item of every record. -/
def buildItemsDict (records : List ImportRecord) : List (String × Rat) :=
  buildDict ((records.flatMap (·.items)).map (fun it => (it.name, it.price)))

/-- The customer insert loop of `populate_database`: one
`INSERT INTO customers (name, phone)` per dict entry. -/
def insertImportCustomers : List (String × String) → DB → Except Failure DB
  | [], db => .ok db
  | (p, n) :: rest, db =>
    if hasCols db "customers" ["name", "phone"] then
      insertImportCustomers rest
        { db with customers := db.customers ++ [⟨nextCustomerId db, n, p⟩] }
    else
      .error (.operationalError "customers: no such table or column")

/-- The item insert loop of `populate_database`: one
`INSERT INTO items (name, price)` per dict entry. -/
def insertImportItems : List (String × Rat) → DB → Except Failure DB
  | [], db => .ok db
  | (n, pr) :: rest, db =>
    if hasCols db "items" ["name", "price"] then
      insertImportItems rest
        { db with items := db.items ++ [⟨nextItemId db, n, pr⟩] }
    else
      .error (.operationalError "items: no such table or column")

/-- The inner item loop of `populate_database`: for each item of the
record, `SELECT id FROM items WHERE name=?` (`fetchone()[0]` raises
`TypeError` on a miss) then `INSERT INTO item_list (order_id, item_id)`. -/
def insertLinesLoop (oid : Int) : List ImportItem → DB → Except Failure DB
  | [], db => .ok db
  | it :: rest, db =>
    if hasCols db "items" ["id", "name"] then
      match db.items.find? (fun i => i.name == it.name) with
      | none => .error (.typeError "NoneType object is not subscriptable")
      | some irow =>
        if hasCols db "item_list" ["order_id", "item_id"] then
          insertLinesLoop oid rest
            { db with item_list := db.item_list ++ [⟨oid, irow.id⟩] }
        else
          .error (.operationalError "item_list: no such table or column")
    else
      .error (.operationalError "items: no such table or column")

/-- One record of the order loop of `populate_database`:
`SELECT id FROM customers WHERE phone=?` (`fetchone()[0]` raises
`TypeError` on a miss), `INSERT INTO orders (timestamp, cust_id, notes)`,
`lastrowid`, then the item loop. -/
def insertOrderForRecord (r : ImportRecord) (db : DB) : Except Failure DB :=
  if hasCols db "customers" ["id", "phone"] then
    match db.customers.find? (fun c => c.phone == r.phone) with
    | none => .error (.typeError "NoneType object is not subscriptable")
    | some crow =>
      if hasCols db "orders" ["timestamp", "cust_id", "notes"] then
        let oid := nextOrderId db
        insertLinesLoop oid r.items
          { db with orders := db.orders ++ [⟨oid, some r.timestamp, crow.id, r.notes⟩] }
      else
        .error (.operationalError "orders: no such table or column")
  else
    .error (.operationalError "customers: no such table or column")

/-- The order loop of `populate_database` over every record. -/
def importOrdersLoop : List ImportRecord → DB → Except Failure DB
  | [], db => .ok db
  | r :: rest, db =>
    match insertOrderForRecord r db with
    | .ok db' => importOrdersLoop rest db'
    | .error e => .error e

/-- `populate_database` of `init_db.py`, from the already parsed record
list (reading and parsing the JSON file is I/O outside the store): builds
the `customers` dict keyed by phone and the `items` dict keyed by name
(later duplicates of a key overwrite the value, so one entry per distinct
key), inserts one customer row per dict entry and one item row per dict
entry, then one order row plus its `item_list` rows per record, and commits
once at the end; on an exception the commit is never reached and the store
is as at entry. -/
def populate_database (records : List ImportRecord) (db : DB) :
    Except Failure String × DB :=
  let step := (insertImportCustomers (buildCustomersDict records) db).bind
    (fun db1 => (insertImportItems (buildItemsDict records) db1).bind
      (fun db2 => importOrdersLoop records db2))
  match step with
  | .ok db' => (.ok "Database populated successfully.", db')
  | .error e => (.error e, db)

/-- A store provisioned by `initialize_schema` into which one customer
(id 1) and one item (id 1) have been created through the endpoints. -/
def dbWithCustomerAndItem : DB :=
  (create_item ⟨"Widget", 10⟩
    ((create_customer ⟨"Alice", "5551234"⟩ (initialize_schema emptyDB)).2)).2

/-- A store built by a bulk import of one record: customer id 1, item id 1,
order id 1, and one `item_list` row `(1, 1)`. -/
def importedStore : DB :=
  (populate_database
    [⟨"5551234", "Alice", "2024-01-01", none, [⟨"Widget", 10⟩]⟩]
    (initialize_schema emptyDB)).2

/-- A store provisioned by `initialize_schema` already holding a customer
with phone `"5551234"`, created through the endpoint. -/
def storeWithAlice : DB :=
  (create_customer ⟨"Alice", "5551234"⟩ (initialize_schema emptyDB)).2

/-! ### The provisioned-schema predicate and basic lemmas -/

/-- The schema every store provisioned by `initialize_schema` carries. -/
def provisioned (db : DB) : Prop :=
  tableCols db "customers" = some customersCols ∧
  tableCols db "items" = some itemsCols ∧
  tableCols db "orders" = some ordersCols ∧
  tableCols db "item_list" = some itemListCols

instance (db : DB) : Decidable (provisioned db) := by
  unfold provisioned; infer_instance

theorem hasCols_eq_of_tableCols {db : DB} {t : String} {cols : List String}
    (h : tableCols db t = some cols) (cs : List String) :
    hasCols db t cs = cs.all (fun c => cols.contains c) := by
  unfold hasCols; rw [h]

theorem hasCols_congr {db db' : DB} (h : db'.schema = db.schema) (t : String)
    (cs : List String) : hasCols db' t cs = hasCols db t cs := by
  unfold hasCols tableCols; rw [h]

theorem maxId_nonneg (l : List Int) : 0 ≤ maxId l := by
  induction l with
  | nil => simp [maxId]
  | cons a l ih =>
    simp only [maxId, List.foldr_cons] at *
    exact le_trans ih (le_max_right a _)

theorem le_maxId_of_mem {a : Int} {l : List Int} (h : a ∈ l) : a ≤ maxId l := by
  induction l with
  | nil => cases h
  | cons b l ih =>
    simp only [maxId, List.foldr_cons]
    rcases List.mem_cons.mp h with rfl | h'
    · exact le_max_left _ _
    · exact le_trans (ih h') (le_max_right _ _)

theorem maxId_append_singleton (l : List Int) (a : Int) :
    maxId (l ++ [a]) = max (maxId l) a := by
  induction l with
  | nil => simp [maxId, max_comm]
  | cons b l ih =>
    simp only [maxId, List.cons_append, List.foldr_cons] at *
    rw [ih, max_assoc]

theorem nextCustomerId_fresh (db : DB) :
    ∀ r ∈ db.customers, (r.id == nextCustomerId db) = false := by
  intro r hr
  have h1 : r.id ≤ maxId (db.customers.map (·.id)) :=
    le_maxId_of_mem (List.mem_map_of_mem _ hr)
  have h2 : r.id ≠ nextCustomerId db := by unfold nextCustomerId; omega
  simpa using h2

theorem nextItemId_fresh (db : DB) :
    ∀ r ∈ db.items, (r.id == nextItemId db) = false := by
  intro r hr
  have h1 : r.id ≤ maxId (db.items.map (·.id)) :=
    le_maxId_of_mem (List.mem_map_of_mem _ hr)
  have h2 : r.id ≠ nextItemId db := by unfold nextItemId; omega
  simpa using h2

/-! ### Lemmas about schema creation -/

theorem createTable_rows (t : String) (cs : List String) (db : DB) :
    (createTableIfNotExists t cs db).customers = db.customers ∧
    (createTableIfNotExists t cs db).items = db.items ∧
    (createTableIfNotExists t cs db).orders = db.orders ∧
    (createTableIfNotExists t cs db).orders_flat = db.orders_flat ∧
    (createTableIfNotExists t cs db).item_list = db.item_list := by
  unfold createTableIfNotExists
  split <;> exact ⟨rfl, rfl, rfl, rfl, rfl⟩

theorem tableCols_createTable_self (t : String) (cs : List String) (db : DB) :
    tableCols (createTableIfNotExists t cs db) t = some ((tableCols db t).getD cs) := by
  unfold createTableIfNotExists tableCols
  cases hfind : db.schema.find? (fun p => p.1 == t) with
  | some x => simp [hfind]
  | none => simp [hfind, List.find?_append]

theorem tableCols_createTable_other (t : String) (cs : List String) (db : DB)
    (t' : String) (h : t' ≠ t) :
    tableCols (createTableIfNotExists t cs db) t' = tableCols db t' := by
  unfold createTableIfNotExists tableCols
  cases hfind : db.schema.find? (fun p => p.1 == t) with
  | some x => simp [hfind]
  | none =>
    have hne : (t == t') = false := by simpa using fun he => h he.symm
    simp [hfind, List.find?_append, hne]

theorem tableCols_createTable_preserve (t' : String) (cs : List String) (db : DB)
    (t : String) (h : (tableCols db t).isSome) :
    tableCols (createTableIfNotExists t' cs db) t = tableCols db t := by
  by_cases he : t = t'
  · subst he
    rw [tableCols_createTable_self]
    obtain ⟨x, hx⟩ := Option.isSome_iff_exists.mp h
    simp [hx]
  · exact tableCols_createTable_other t' cs db t he

theorem tableCols_createTable_isSome (t : String) (cs : List String) (db : DB) :
    (tableCols (createTableIfNotExists t cs db) t).isSome := by
  rw [tableCols_createTable_self]; rfl

theorem createTable_present (t : String) (cs : List String) (db : DB)
    (h : (tableCols db t).isSome) : createTableIfNotExists t cs db = db := by
  unfold createTableIfNotExists
  have : (db.schema.find? (fun p => p.1 == t)).isSome := by
    unfold tableCols at h
    cases hfind : db.schema.find? (fun p => p.1 == t) with
    | some x => rfl
    | none => rw [hfind] at h; simp at h
  simp [this]

theorem createTable_absent (t : String) (cs : List String) (db : DB)
    (h : tableCols db t = none) :
    createTableIfNotExists t cs db = { db with schema := db.schema ++ [(t, cs)] } := by
  unfold createTableIfNotExists
  have : db.schema.find? (fun p => p.1 == t) = none := by
    unfold tableCols at h
    cases hfind : db.schema.find? (fun p => p.1 == t) with
    | some x => rw [hfind] at h; simp at h
    | none => rfl
  simp [this]

theorem initialize_schema_rows (db : DB) :
    (initialize_schema db).customers = db.customers ∧
    (initialize_schema db).items = db.items ∧
    (initialize_schema db).orders = db.orders ∧
    (initialize_schema db).orders_flat = db.orders_flat ∧
    (initialize_schema db).item_list = db.item_list := by
  unfold initialize_schema
  obtain ⟨a1, b1, c1, d1, e1⟩ := createTable_rows "customers" customersCols db
  obtain ⟨a2, b2, c2, d2, e2⟩ := createTable_rows "items" itemsCols
    (createTableIfNotExists "customers" customersCols db)
  obtain ⟨a3, b3, c3, d3, e3⟩ := createTable_rows "orders" ordersCols
    (createTableIfNotExists "items" itemsCols
      (createTableIfNotExists "customers" customersCols db))
  obtain ⟨a4, b4, c4, d4, e4⟩ := createTable_rows "item_list" itemListCols
    (createTableIfNotExists "orders" ordersCols
      (createTableIfNotExists "items" itemsCols
        (createTableIfNotExists "customers" customersCols db)))
  exact ⟨by rw [a4, a3, a2, a1], by rw [b4, b3, b2, b1], by rw [c4, c3, c2, c1],
         by rw [d4, d3, d2, d1], by rw [e4, e3, e2, e1]⟩

theorem initialize_schema_preserve (db : DB) (t : String)
    (h : (tableCols db t).isSome) :
    tableCols (initialize_schema db) t = tableCols db t := by
  unfold initialize_schema
  have h1 := tableCols_createTable_preserve "customers" customersCols db t h
  have h1s : (tableCols (createTableIfNotExists "customers" customersCols db) t).isSome := by
    rw [h1]; exact h
  have h2 := tableCols_createTable_preserve "items" itemsCols _ t h1s
  have h2s : (tableCols (createTableIfNotExists "items" itemsCols
      (createTableIfNotExists "customers" customersCols db)) t).isSome := by
    rw [h2]; exact h1s
  have h3 := tableCols_createTable_preserve "orders" ordersCols _ t h2s
  have h3s : (tableCols (createTableIfNotExists "orders" ordersCols
      (createTableIfNotExists "items" itemsCols
        (createTableIfNotExists "customers" customersCols db))) t).isSome := by
    rw [h3]; exact h2s
  have h4 := tableCols_createTable_preserve "item_list" itemListCols _ t h3s
  rw [h4, h3, h2, h1]

theorem initialize_schema_tables_exist (db : DB) :
    (tableCols (initialize_schema db) "customers").isSome ∧
    (tableCols (initialize_schema db) "items").isSome ∧
    (tableCols (initialize_schema db) "orders").isSome ∧
    (tableCols (initialize_schema db) "item_list").isSome := by
  unfold initialize_schema
  refine ⟨?_, ?_, ?_, ?_⟩
  · have h1 := tableCols_createTable_isSome "customers" customersCols db
    have h2 := tableCols_createTable_preserve "items" itemsCols _ "customers" h1
    have h2s : (tableCols (createTableIfNotExists "items" itemsCols
        (createTableIfNotExists "customers" customersCols db)) "customers").isSome := by
      rw [h2]; exact h1
    have h3 := tableCols_createTable_preserve "orders" ordersCols _ "customers" h2s
    have h3s : (tableCols (createTableIfNotExists "orders" ordersCols
        (createTableIfNotExists "items" itemsCols
          (createTableIfNotExists "customers" customersCols db))) "customers").isSome := by
      rw [h3]; exact h2s
    have h4 := tableCols_createTable_preserve "item_list" itemListCols _ "customers" h3s
    rw [h4, h3, h2]; exact h1
  · have h1 := tableCols_createTable_isSome "items" itemsCols
      (createTableIfNotExists "customers" customersCols db)
    have h2 := tableCols_createTable_preserve "orders" ordersCols _ "items" h1
    have h2s : (tableCols (createTableIfNotExists "orders" ordersCols
        (createTableIfNotExists "items" itemsCols
          (createTableIfNotExists "customers" customersCols db))) "items").isSome := by
      rw [h2]; exact h1
    have h3 := tableCols_createTable_preserve "item_list" itemListCols _ "items" h2s
    rw [h3, h2]; exact h1
  · have h1 := tableCols_createTable_isSome "orders" ordersCols
      (createTableIfNotExists "items" itemsCols
        (createTableIfNotExists "customers" customersCols db))
    have h2 := tableCols_createTable_preserve "item_list" itemListCols _ "orders" h1
    rw [h2]; exact h1
  · exact tableCols_createTable_isSome "item_list" itemListCols _

theorem initialize_schema_of_present (d : DB)
    (hc : (tableCols d "customers").isSome) (hi : (tableCols d "items").isSome)
    (ho : (tableCols d "orders").isSome) (hl : (tableCols d "item_list").isSome) :
    initialize_schema d = d := by
  unfold initialize_schema
  rw [createTable_present _ _ _ hc, createTable_present _ _ _ hi,
      createTable_present _ _ _ ho, createTable_present _ _ _ hl]

theorem initialize_schema_fresh_schema (db : DB)
    (hc : tableCols db "customers" = none) (hi : tableCols db "items" = none)
    (ho : tableCols db "orders" = none) (hl : tableCols db "item_list" = none) :
    (initialize_schema db).schema = db.schema ++
      [("customers", customersCols), ("items", itemsCols),
       ("orders", ordersCols), ("item_list", itemListCols)] := by
  unfold initialize_schema
  have e1 := createTable_absent "customers" customersCols db hc
  have hi1 : tableCols (createTableIfNotExists "customers" customersCols db) "items" = none := by
    rw [tableCols_createTable_other _ _ _ _ (by decide)]; exact hi
  have e2 := createTable_absent "items" itemsCols _ hi1
  have ho1 : tableCols (createTableIfNotExists "items" itemsCols
      (createTableIfNotExists "customers" customersCols db)) "orders" = none := by
    rw [tableCols_createTable_other _ _ _ _ (by decide),
        tableCols_createTable_other _ _ _ _ (by decide)]
    exact ho
  have e3 := createTable_absent "orders" ordersCols _ ho1
  have hl1 : tableCols (createTableIfNotExists "orders" ordersCols
      (createTableIfNotExists "items" itemsCols
        (createTableIfNotExists "customers" customersCols db))) "item_list" = none := by
    rw [tableCols_createTable_other _ _ _ _ (by decide),
        tableCols_createTable_other _ _ _ _ (by decide),
        tableCols_createTable_other _ _ _ _ (by decide)]
    exact hl
  have e4 := createTable_absent "item_list" itemListCols _ hl1
  rw [e4, e3, e2, e1]
  simp

/-- C9: schema provisioning is idempotent and ordered.  For every store
state, `initialize_schema` touches no data rows; afterwards all four
relations exist; a table already present is left exactly as it was (created
only if absent); on a store with none of the four tables the schema gains
the entries `customers`, `items`, `orders`, `item_list` appended in that
creation order (Customer/Item before Order, Order before OrderLine); and a
second run leaves the store in the same state as one run. -/
theorem initialize_schema_contract (db : DB) :
    ((initialize_schema db).customers = db.customers ∧
     (initialize_schema db).items = db.items ∧
     (initialize_schema db).orders = db.orders ∧
     (initialize_schema db).orders_flat = db.orders_flat ∧
     (initialize_schema db).item_list = db.item_list) ∧
    ((tableCols (initialize_schema db) "customers").isSome ∧
     (tableCols (initialize_schema db) "items").isSome ∧
     (tableCols (initialize_schema db) "orders").isSome ∧
     (tableCols (initialize_schema db) "item_list").isSome) ∧
    (∀ t : String, (tableCols db t).isSome →
      tableCols (initialize_schema db) t = tableCols db t) ∧
    (tableCols db "customers" = none → tableCols db "items" = none →
     tableCols db "orders" = none → tableCols db "item_list" = none →
      (initialize_schema db).schema = db.schema ++
        [("customers", customersCols), ("items", itemsCols),
         ("orders", ordersCols), ("item_list", itemListCols)]) ∧
    initialize_schema (initialize_schema db) = initialize_schema db := by
  obtain ⟨hc, hi, ho, hl⟩ := initialize_schema_tables_exist db
  exact ⟨initialize_schema_rows db, ⟨hc, hi, ho, hl⟩,
    fun t ht => initialize_schema_preserve db t ht,
    fun h1 h2 h3 h4 => initialize_schema_fresh_schema db h1 h2 h3 h4,
    initialize_schema_of_present _ hc hi ho hl⟩

/-! ### Catalog store lemmas -/

theorem nextCustomerId_after_append (db : DB) :
    nextCustomerId { db with customers :=
        db.customers ++ [⟨nextCustomerId db, n, p⟩] } = nextCustomerId db + 1 := by
  have hm : max (maxId (db.customers.map (·.id)))
      (maxId (db.customers.map (·.id)) + 1) =
      maxId (db.customers.map (·.id)) + 1 := max_eq_right (by omega)
  unfold nextCustomerId
  simp only [List.map_append, List.map_cons, List.map_nil]
  rw [maxId_append_singleton, hm]

theorem nextItemId_after_append (db : DB) :
    nextItemId { db with items :=
        db.items ++ [⟨nextItemId db, n, pr⟩] } = nextItemId db + 1 := by
  have hm : max (maxId (db.items.map (·.id)))
      (maxId (db.items.map (·.id)) + 1) =
      maxId (db.items.map (·.id)) + 1 := max_eq_right (by omega)
  unfold nextItemId
  simp only [List.map_append, List.map_cons, List.map_nil]
  rw [maxId_append_singleton, hm]

/-- C6: create-then-read round trip.  On any provisioned store, creating a
Customer returns the fresh id with the given name and phone, and reading
that id back returns exactly those field values; likewise for Item with
name and price. -/
theorem create_then_read_roundtrip (db : DB) (c : Customer) (i : Item)
    (h : provisioned db) :
    (create_customer c db).1 = .ok ⟨nextCustomerId db, c.name, c.phone⟩ ∧
    (read_customer (nextCustomerId db) (create_customer c db).2).1 =
      .ok ⟨nextCustomerId db, c.name, c.phone⟩ ∧
    (create_item i db).1 = .ok ⟨nextItemId db, i.name, i.price⟩ ∧
    (read_item (nextItemId db) (create_item i db).2).1 =
      .ok ⟨nextItemId db, i.name, i.price⟩ := by
  have hcc : hasCols db "customers" ["name", "phone"] = true := by
    rw [hasCols_eq_of_tableCols h.1]; decide
  have hci : hasCols db "customers" ["id"] = true := by
    rw [hasCols_eq_of_tableCols h.1]; decide
  have hic : hasCols db "items" ["name", "price"] = true := by
    rw [hasCols_eq_of_tableCols h.2.1]; decide
  have hii : hasCols db "items" ["id"] = true := by
    rw [hasCols_eq_of_tableCols h.2.1]; decide
  refine ⟨?_, ?_, ?_, ?_⟩
  · simp [create_customer, hcc]
  · have hstep : (create_customer c db).2 =
        { db with customers := db.customers ++ [⟨nextCustomerId db, c.name, c.phone⟩] } := by
      simp [create_customer, hcc]
    rw [hstep]
    have hci' : hasCols { db with customers :=
        db.customers ++ [⟨nextCustomerId db, c.name, c.phone⟩] } "customers" ["id"] = true := by
      rw [hasCols_congr rfl]; exact hci
    have hfind : (db.customers ++
        [(⟨nextCustomerId db, c.name, c.phone⟩ : CustomerRow)]).find?
          (fun r => r.id == nextCustomerId db) =
        some ⟨nextCustomerId db, c.name, c.phone⟩ := by
      rw [List.find?_append]
      have h0 : db.customers.find? (fun r => r.id == nextCustomerId db) = none :=
        List.find?_eq_none.mpr (fun x hx => by simp [nextCustomerId_fresh db x hx])
      rw [h0]; simp
    simp [read_customer, hci', hfind]
  · simp [create_item, hic]
  · have hstep : (create_item i db).2 =
        { db with items := db.items ++ [⟨nextItemId db, i.name, i.price⟩] } := by
      simp [create_item, hic]
    rw [hstep]
    have hii' : hasCols { db with items :=
        db.items ++ [⟨nextItemId db, i.name, i.price⟩] } "items" ["id"] = true := by
      rw [hasCols_congr rfl]; exact hii
    have hfind : (db.items ++
        [(⟨nextItemId db, i.name, i.price⟩ : ItemRow)]).find?
          (fun r => r.id == nextItemId db) =
        some ⟨nextItemId db, i.name, i.price⟩ := by
      rw [List.find?_append]
      have h0 : db.items.find? (fun r => r.id == nextItemId db) = none :=
        List.find?_eq_none.mpr (fun x hx => by simp [nextItemId_fresh db x hx])
      rw [h0]; simp
    simp [read_item, hii', hfind]

/-- C7: deleting a Customer, Item, or Order by an id no row carries returns
the 404 NotFound error and leaves every relation of the store unchanged. -/
theorem delete_missing_id_notFound (db : DB) (idc idi ido : Int)
    (h : provisioned db)
    (hc : ∀ r ∈ db.customers, r.id ≠ idc)
    (hi : ∀ r ∈ db.items, r.id ≠ idi)
    (ho : ∀ r ∈ db.orders, r.id ≠ ido)
    (hof : ∀ r ∈ db.orders_flat, r.id ≠ ido) :
    delete_customer idc db = (.error (.http 404 "Customer not found"), db) ∧
    delete_item idi db = (.error (.http 404 "Item not found"), db) ∧
    delete_order ido db = (.error (.http 404 "Order not found"), db) := by
  refine ⟨?_, ?_, ?_⟩
  · have hcols : hasCols db "customers" ["id"] = true := by
      rw [hasCols_eq_of_tableCols h.1]; decide
    have hcount : db.customers.countP (fun r => r.id == idc) = 0 :=
      List.countP_eq_zero.mpr (fun r hr => by simp [hc r hr])
    have hfilt : db.customers.filter (fun r => !(r.id == idc)) = db.customers :=
      List.filter_eq_self.mpr (fun r hr => by simp [hc r hr])
    simp [delete_customer, hcols, hcount, hfilt]
  · have hcols : hasCols db "items" ["id"] = true := by
      rw [hasCols_eq_of_tableCols h.2.1]; decide
    have hcount : db.items.countP (fun r => r.id == idi) = 0 :=
      List.countP_eq_zero.mpr (fun r hr => by simp [hi r hr])
    have hfilt : db.items.filter (fun r => !(r.id == idi)) = db.items :=
      List.filter_eq_self.mpr (fun r hr => by simp [hi r hr])
    simp [delete_item, hcols, hcount, hfilt]
  · have hcols : hasCols db "orders" ["id"] = true := by
      rw [hasCols_eq_of_tableCols h.2.2.1]; decide
    have hcount : db.orders.countP (fun r => r.id == ido) = 0 :=
      List.countP_eq_zero.mpr (fun r hr => by simp [ho r hr])
    have hcountf : db.orders_flat.countP (fun r => r.id == ido) = 0 :=
      List.countP_eq_zero.mpr (fun r hr => by simp [hof r hr])
    have hfilt : db.orders.filter (fun r => !(r.id == ido)) = db.orders :=
      List.filter_eq_self.mpr (fun r hr => by simp [ho r hr])
    have hfiltf : db.orders_flat.filter (fun r => !(r.id == ido)) = db.orders_flat :=
      List.filter_eq_self.mpr (fun r hr => by simp [hof r hr])
    simp [delete_order, hcols, hcount, hcountf, hfilt, hfiltf]

/-- C10: direct single-entity creation never deduplicates.  On any
provisioned store, creating the same Customer body twice inserts two rows
with distinct surrogate ids and the same phone; likewise two Item rows with
the same name. -/
theorem direct_create_inserts_duplicates (db : DB) (c : Customer) (i : Item)
    (h : provisioned db) :
    (create_customer c db).1 = .ok ⟨nextCustomerId db, c.name, c.phone⟩ ∧
    (create_customer c (create_customer c db).2).1 =
      .ok ⟨nextCustomerId db + 1, c.name, c.phone⟩ ∧
    ((create_customer c (create_customer c db).2).2).customers =
      db.customers ++ [⟨nextCustomerId db, c.name, c.phone⟩,
                       ⟨nextCustomerId db + 1, c.name, c.phone⟩] ∧
    nextCustomerId db ≠ nextCustomerId db + 1 ∧
    (create_item i db).1 = .ok ⟨nextItemId db, i.name, i.price⟩ ∧
    (create_item i (create_item i db).2).1 =
      .ok ⟨nextItemId db + 1, i.name, i.price⟩ ∧
    ((create_item i (create_item i db).2).2).items =
      db.items ++ [⟨nextItemId db, i.name, i.price⟩,
                   ⟨nextItemId db + 1, i.name, i.price⟩] ∧
    nextItemId db ≠ nextItemId db + 1 := by
  have hcc : hasCols db "customers" ["name", "phone"] = true := by
    rw [hasCols_eq_of_tableCols h.1]; decide
  have hic : hasCols db "items" ["name", "price"] = true := by
    rw [hasCols_eq_of_tableCols h.2.1]; decide
  have hstepc : (create_customer c db).2 =
      { db with customers := db.customers ++ [⟨nextCustomerId db, c.name, c.phone⟩] } := by
    simp [create_customer, hcc]
  have hstepi : (create_item i db).2 =
      { db with items := db.items ++ [⟨nextItemId db, i.name, i.price⟩] } := by
    simp [create_item, hic]
  have hcc' : hasCols { db with customers :=
      db.customers ++ [⟨nextCustomerId db, c.name, c.phone⟩] }
        "customers" ["name", "phone"] = true := by
    rw [hasCols_congr rfl]; exact hcc
  have hic' : hasCols { db with items :=
      db.items ++ [⟨nextItemId db, i.name, i.price⟩] } "items" ["name", "price"] = true := by
    rw [hasCols_congr rfl]; exact hic
  refine ⟨by simp [create_customer, hcc], ?_, ?_, by omega,
          by simp [create_item, hic], ?_, ?_, by omega⟩
  · rw [hstepc]
    simp [create_customer, hcc', nextCustomerId_after_append]
  · rw [hstepc]
    simp [create_customer, hcc', nextCustomerId_after_append]
  · rw [hstepi]
    simp [create_item, hic', nextItemId_after_append]
  · rw [hstepi]
    simp [create_item, hic', nextItemId_after_append]

/-- C8 amended: neither `create_item` nor `update_item` validates the
price.  On any provisioned store a negative price is accepted: creation
succeeds and writes the row with the negative price, and updating any
existing item succeeds and writes the negative price. -/
theorem negative_price_no_validation (db : DB) (n : String) (p : Rat)
    (h : provisioned db) (hneg : p < 0) :
    ((create_item ⟨n, p⟩ db).1 = .ok ⟨nextItemId db, n, p⟩ ∧
     (create_item ⟨n, p⟩ db).2.items = db.items ++ [⟨nextItemId db, n, p⟩]) ∧
    (∀ r ∈ db.items, (update_item r.id ⟨n, p⟩ db).1 = .ok ⟨r.id, n, p⟩ ∧
      { r with name := n, price := p } ∈ (update_item r.id ⟨n, p⟩ db).2.items) := by
  have hic : hasCols db "items" ["name", "price"] = true := by
    rw [hasCols_eq_of_tableCols h.2.1]; decide
  have hiu : hasCols db "items" ["id", "name", "price"] = true := by
    rw [hasCols_eq_of_tableCols h.2.1]; decide
  refine ⟨⟨by simp [create_item, hic], by simp [create_item, hic]⟩, ?_⟩
  intro r hr
  have hpos : db.items.countP (fun x => x.id == r.id) ≠ 0 := by
    have : 0 < db.items.countP (fun x => x.id == r.id) :=
      List.countP_pos_iff.mpr ⟨r, hr, by simp⟩
    omega
  constructor
  · simp [update_item, hiu, hpos]
  · have hmem := List.mem_map_of_mem
      (fun x : ItemRow => if x.id == r.id then { x with name := n, price := p } else x) hr
    simp only [beq_self_eq_true, if_pos] at hmem
    simp [update_item, hiu, hpos]
    simpa using hmem

/-! ### Order endpoints against the provisioned schema -/

/-- C3 amended: on every store provisioned by `initialize_schema`,
`create_order` and `read_order` fail with the sqlite storage error (unknown
column `customer_id`) for every input and leave the store unchanged, and
`create_bulk_order` does so for every batch with at least one entry; the
empty batch performs no insert and therefore succeeds (the counterexample
to the unrestricted claim). -/
theorem order_endpoints_always_storage_error (db : DB) (h : provisioned db) :
    (∀ o : Order, create_order o db =
      (.error (.operationalError "orders: no such column: customer_id"), db)) ∧
    (∀ oid : Int, read_order oid db =
      (.error (.operationalError "orders: no such column: customer_id"), db)) ∧
    (∀ b : BulkOrder, b.items ≠ [] → create_bulk_order b db =
      (.error (.operationalError "orders: no such column: customer_id"), db)) := by
  have hflat : hasCols db "orders" ["customer_id", "item_id", "quantity"] = false := by
    rw [hasCols_eq_of_tableCols h.2.2.1]; decide
  have hread : hasCols db "orders" ["id", "customer_id", "item_id", "quantity"] = false := by
    rw [hasCols_eq_of_tableCols h.2.2.1]; decide
  refine ⟨fun o => by simp [create_order, hflat],
          fun oid => by simp [read_order, hread], fun b hb => ?_⟩
  match b, hb with
  | ⟨o :: rest⟩, _ => simp [create_bulk_order, bulkInsertLoop, hflat]

/-- C3 counterexample: the empty bulk batch, an input on which
`create_bulk_order` runs no INSERT at all, succeeds on a provisioned store
instead of failing with a storage error. -/
theorem empty_bulk_order_succeeds :
    create_bulk_order ⟨[]⟩ (initialize_schema emptyDB) =
      (.ok "Bulk order created with 0 items", initialize_schema emptyDB) := by
  decide

/-- C1: `create_order` evaluated at a request whose customerId (999)
resolves to no Customer, on a freshly provisioned store: zero rows are
written, but the failure returned is the sqlite storage error for the
unknown column `customer_id` — not a ReferenceError naming the customer
field — and no existence check of the customer happens anywhere. -/
theorem create_order_missing_customer_storage_error :
    create_order ⟨999, 1, 1⟩ (initialize_schema emptyDB) =
      (.error (.operationalError "orders: no such column: customer_id"),
       initialize_schema emptyDB) ∧
    (initialize_schema emptyDB).customers.all (fun c => !(c.id == 999)) = true := by
  decide

/-- C2: `create_bulk_order` evaluated at a batch of one entry whose
referenced customer and item both exist: instead of committing exactly one
order, it commits zero orders and fails with the sqlite storage error,
because its INSERT references columns the provisioned orders table does not
have and no up-front validation or per-entry failure report exists. -/
theorem bulk_order_valid_batch_commits_zero :
    (dbWithCustomerAndItem.customers.any (fun c => c.id == 1)) = true ∧
    (dbWithCustomerAndItem.items.any (fun i => i.id == 1)) = true ∧
    create_bulk_order ⟨[⟨1, 1, 1⟩]⟩ dbWithCustomerAndItem =
      (.error (.operationalError "orders: no such column: customer_id"),
       dbWithCustomerAndItem) := by
  decide

/-- C4 counterexample: on a store holding order 1 with one `item_list` row,
`delete_order 1` reports success and removes the order row, yet the
`item_list` row referencing order 1 is still queryable — the delete does
not cascade. -/
theorem delete_order_leaves_orphan_lines :
    (importedStore.orders.any (fun o => o.id == 1)) = true ∧
    (importedStore.item_list.any (fun l => l.order_id == 1)) = true ∧
    (delete_order 1 importedStore).1 = .ok "Order deleted successfully" ∧
    (delete_order 1 importedStore).2.orders.all (fun o => !(o.id == 1)) = true ∧
    (delete_order 1 importedStore).2.item_list.any (fun l => l.order_id == 1) = true := by
  decide

/-- C4 amended: for every existing order id on a provisioned store,
`delete_order` succeeds and removes every orders row with that id, but
touches no other relation: in particular the order's `item_list` rows all
remain (no cascade). -/
theorem delete_order_removes_only_order_row (db : DB) (oid : Int)
    (h : provisioned db) (hmem : ∃ r ∈ db.orders, r.id = oid) :
    (delete_order oid db).1 = .ok "Order deleted successfully" ∧
    (∀ r ∈ (delete_order oid db).2.orders, r.id ≠ oid) ∧
    (delete_order oid db).2.item_list = db.item_list ∧
    (delete_order oid db).2.customers = db.customers ∧
    (delete_order oid db).2.items = db.items := by
  have hcols : hasCols db "orders" ["id"] = true := by
    rw [hasCols_eq_of_tableCols h.2.2.1]; decide
  obtain ⟨r, hr, hrid⟩ := hmem
  have hpos : db.orders.countP (fun x => x.id == oid)
      + db.orders_flat.countP (fun x => x.id == oid) ≠ 0 := by
    have : 0 < db.orders.countP (fun x => x.id == oid) :=
      List.countP_pos_iff.mpr ⟨r, hr, by simp [hrid]⟩
    omega
  have hdb : (delete_order oid db).2.orders =
      db.orders.filter (fun x => !(x.id == oid)) := by
    simp [delete_order, hcols, hpos]
  refine ⟨by simp [delete_order, hcols, hpos], ?_,
          by simp [delete_order, hcols, hpos],
          by simp [delete_order, hcols, hpos],
          by simp [delete_order, hcols, hpos]⟩
  intro x hx
  rw [hdb] at hx
  have hmemf := List.of_mem_filter hx
  simpa using hmemf

/-! ### Bulk import lemmas -/

theorem countP_dictInsert_self (k : String) (v : α) (d : List (String × α)) :
    (dictInsert k v d).countP (fun e => e.1 == k) =
      max 1 (d.countP (fun e => e.1 == k)) := by
  induction d with
  | nil => simp [dictInsert]
  | cons kv rest ih =>
    obtain ⟨k', v'⟩ := kv
    by_cases hk : k' = k
    · subst hk
      have heq : dictInsert k' v ((k', v') :: rest) = (k', v) :: rest := by
        simp [dictInsert]
      rw [heq]
      simp [List.countP_cons]
    · have hb : (k' == k) = false := by simp [hk]
      simp [dictInsert, hb, List.countP_cons, ih]

theorem countP_dictInsert_ne (k q : String) (v : α) (d : List (String × α))
    (hqk : q ≠ k) :
    (dictInsert k v d).countP (fun e => e.1 == q) =
      d.countP (fun e => e.1 == q) := by
  have hkq : (k == q) = false := by simp [Ne.symm hqk]
  induction d with
  | nil => simp [dictInsert, List.countP_cons, hkq]
  | cons kv rest ih =>
    obtain ⟨k', v'⟩ := kv
    by_cases hk : k' = k
    · subst hk
      have heq : dictInsert k' v ((k', v') :: rest) = (k', v) :: rest := by
        simp [dictInsert]
      rw [heq]
      simp [List.countP_cons]
    · have hb : (k' == k) = false := by simp [hk]
      simp [dictInsert, hb, List.countP_cons, ih]

theorem countP_buildDictAux (pairs : List (String × α)) (q : String)
    (d : List (String × α)) :
    (pairs.foldl (fun d kv => dictInsert kv.1 kv.2 d) d).countP (fun e => e.1 == q) =
      if pairs.any (fun kv => kv.1 == q) then
        max 1 (d.countP (fun e => e.1 == q))
      else d.countP (fun e => e.1 == q) := by
  induction pairs generalizing d with
  | nil => simp
  | cons kv rest ih =>
    obtain ⟨k, v⟩ := kv
    by_cases hk : k = q
    · subst hk
      rw [List.foldl_cons, ih, countP_dictInsert_self]
      by_cases hrest : rest.any (fun kv => kv.1 == k) = true
      · simp [hrest]
      · simp only [Bool.not_eq_true] at hrest
        simp [hrest]
    · have hb : (k == q) = false := by simp [hk]
      rw [List.foldl_cons, ih, countP_dictInsert_ne k q v d (Ne.symm hk)]
      simp only [List.any_cons]
      simp only [hb, Bool.false_or]

theorem countP_buildDict (pairs : List (String × α)) (q : String) :
    (buildDict pairs).countP (fun e => e.1 == q) =
      if pairs.any (fun kv => kv.1 == q) then 1 else 0 := by
  unfold buildDict
  rw [countP_buildDictAux]
  simp

theorem insertImportCustomers_ok (d : List (String × String)) (db : DB)
    (h : hasCols db "customers" ["name", "phone"] = true) :
    ∃ db', insertImportCustomers d db = .ok db' ∧
      db'.customers.map (fun r => r.phone) =
        db.customers.map (fun r => r.phone) ++ d.map (·.1) ∧
      db'.schema = db.schema ∧ db'.items = db.items ∧ db'.orders = db.orders ∧
      db'.orders_flat = db.orders_flat ∧ db'.item_list = db.item_list := by
  induction d generalizing db with
  | nil => exact ⟨db, rfl, by simp, rfl, rfl, rfl, rfl, rfl⟩
  | cons kv rest ih =>
    obtain ⟨p, n⟩ := kv
    have h' : hasCols { db with customers :=
        db.customers ++ [⟨nextCustomerId db, n, p⟩] } "customers" ["name", "phone"] = true := by
      rw [hasCols_congr rfl]; exact h
    obtain ⟨db', heq, hphones, hsch, hit, hor, hof, hil⟩ := ih _ h'
    refine ⟨db', ?_, ?_, hsch, hit, hor, hof, hil⟩
    · simp only [insertImportCustomers, h, if_true]
      exact heq
    · rw [hphones]; simp

theorem insertImportItems_ok (d : List (String × Rat)) (db : DB)
    (h : hasCols db "items" ["name", "price"] = true) :
    ∃ db', insertImportItems d db = .ok db' ∧
      db'.items.map (fun r => r.name) =
        db.items.map (fun r => r.name) ++ d.map (·.1) ∧
      db'.schema = db.schema ∧ db'.customers = db.customers ∧
      db'.orders = db.orders ∧ db'.orders_flat = db.orders_flat ∧
      db'.item_list = db.item_list := by
  induction d generalizing db with
  | nil => exact ⟨db, rfl, by simp, rfl, rfl, rfl, rfl, rfl⟩
  | cons kv rest ih =>
    obtain ⟨n, pr⟩ := kv
    have h' : hasCols { db with items :=
        db.items ++ [⟨nextItemId db, n, pr⟩] } "items" ["name", "price"] = true := by
      rw [hasCols_congr rfl]; exact h
    obtain ⟨db', heq, hnames, hsch, hcu, hor, hof, hil⟩ := ih _ h'
    refine ⟨db', ?_, ?_, hsch, hcu, hor, hof, hil⟩
    · simp only [insertImportItems, h, if_true]
      exact heq
    · rw [hnames]; simp

theorem insertLinesLoop_ok (oid : Int) (its : List ImportItem) (db : DB)
    (hit : hasCols db "items" ["id", "name"] = true)
    (hil : hasCols db "item_list" ["order_id", "item_id"] = true)
    (hnm : ∀ it ∈ its, ∃ i ∈ db.items, (i.name == it.name) = true) :
    ∃ db', insertLinesLoop oid its db = .ok db' ∧
      db'.customers = db.customers ∧ db'.items = db.items ∧
      db'.orders = db.orders ∧ db'.schema = db.schema := by
  induction its generalizing db with
  | nil => exact ⟨db, rfl, rfl, rfl, rfl, rfl⟩
  | cons it rest ih =>
    obtain ⟨i0, hi0, hb0⟩ := hnm it (List.mem_cons_self _ _)
    have hfind : (db.items.find? (fun i => i.name == it.name)).isSome :=
      List.find?_isSome.mpr ⟨i0, hi0, hb0⟩
    obtain ⟨irow, hirow⟩ := Option.isSome_iff_exists.mp hfind
    have hit' : hasCols { db with item_list :=
        db.item_list ++ [⟨oid, irow.id⟩] } "items" ["id", "name"] = true := by
      rw [hasCols_congr rfl]; exact hit
    have hil' : hasCols { db with item_list :=
        db.item_list ++ [⟨oid, irow.id⟩] } "item_list" ["order_id", "item_id"] = true := by
      rw [hasCols_congr rfl]; exact hil
    have hnm' : ∀ it' ∈ rest, ∃ i ∈ ({ db with item_list :=
        db.item_list ++ [⟨oid, irow.id⟩] } : DB).items, (i.name == it'.name) = true :=
      fun it' h' => hnm it' (List.mem_cons_of_mem _ h')
    obtain ⟨db', heq, hc, hi, ho, hs⟩ := ih _ hit' hil' hnm'
    refine ⟨db', ?_, hc, hi, ho, hs⟩
    simp only [insertLinesLoop, hit, if_true, hirow, hil]
    exact heq

theorem insertOrderForRecord_ok (r : ImportRecord) (db : DB)
    (hcu : hasCols db "customers" ["id", "phone"] = true)
    (hor : hasCols db "orders" ["timestamp", "cust_id", "notes"] = true)
    (hit : hasCols db "items" ["id", "name"] = true)
    (hil : hasCols db "item_list" ["order_id", "item_id"] = true)
    (hph : ∃ c ∈ db.customers, (c.phone == r.phone) = true)
    (hnm : ∀ it ∈ r.items, ∃ i ∈ db.items, (i.name == it.name) = true) :
    ∃ db', insertOrderForRecord r db = .ok db' ∧
      db'.customers = db.customers ∧ db'.items = db.items ∧
      db'.schema = db.schema := by
  have hfind : (db.customers.find? (fun c => c.phone == r.phone)).isSome := by
    obtain ⟨c, hc, hb⟩ := hph
    exact List.find?_isSome.mpr ⟨c, hc, hb⟩
  obtain ⟨crow, hcrow⟩ := Option.isSome_iff_exists.mp hfind
  have hit1 : hasCols { db with orders := db.orders ++
      [⟨nextOrderId db, some r.timestamp, crow.id, r.notes⟩] } "items" ["id", "name"] = true := by
    rw [hasCols_congr rfl]; exact hit
  have hil1 : hasCols { db with orders := db.orders ++
      [⟨nextOrderId db, some r.timestamp, crow.id, r.notes⟩] }
        "item_list" ["order_id", "item_id"] = true := by
    rw [hasCols_congr rfl]; exact hil
  have hnm1 : ∀ it ∈ r.items, ∃ i ∈ ({ db with orders := db.orders ++
      [⟨nextOrderId db, some r.timestamp, crow.id, r.notes⟩] } : DB).items,
        (i.name == it.name) = true := fun it h' => hnm it h'
  obtain ⟨db', heq, hc', hi', ho', hs'⟩ :=
    insertLinesLoop_ok (nextOrderId db) r.items _ hit1 hil1 hnm1
  refine ⟨db', ?_, ?_, ?_, ?_⟩
  · simp only [insertOrderForRecord, hcu, if_true, hcrow, hor]
    exact heq
  · rw [hc']
  · rw [hi']
  · rw [hs']

theorem importOrdersLoop_ok (rs : List ImportRecord) (db : DB)
    (hcu : hasCols db "customers" ["id", "phone"] = true)
    (hor : hasCols db "orders" ["timestamp", "cust_id", "notes"] = true)
    (hit : hasCols db "items" ["id", "name"] = true)
    (hil : hasCols db "item_list" ["order_id", "item_id"] = true)
    (hph : ∀ r ∈ rs, ∃ c ∈ db.customers, (c.phone == r.phone) = true)
    (hnm : ∀ r ∈ rs, ∀ it ∈ r.items, ∃ i ∈ db.items, (i.name == it.name) = true) :
    ∃ db', importOrdersLoop rs db = .ok db' ∧
      db'.customers = db.customers ∧ db'.items = db.items ∧
      db'.schema = db.schema := by
  induction rs generalizing db with
  | nil => exact ⟨db, rfl, rfl, rfl, rfl⟩
  | cons r rest ih =>
    obtain ⟨db1, heq1, hc1, hi1, hs1⟩ := insertOrderForRecord_ok r db hcu hor hit hil
      (hph r (List.mem_cons_self _ _)) (hnm r (List.mem_cons_self _ _))
    have hcu1 : hasCols db1 "customers" ["id", "phone"] = true := by
      rw [hasCols_congr hs1]; exact hcu
    have hor1 : hasCols db1 "orders" ["timestamp", "cust_id", "notes"] = true := by
      rw [hasCols_congr hs1]; exact hor
    have hit1 : hasCols db1 "items" ["id", "name"] = true := by
      rw [hasCols_congr hs1]; exact hit
    have hil1 : hasCols db1 "item_list" ["order_id", "item_id"] = true := by
      rw [hasCols_congr hs1]; exact hil
    have hph1 : ∀ r' ∈ rest, ∃ c ∈ db1.customers, (c.phone == r'.phone) = true := by
      intro r' h'
      rw [hc1]
      exact hph r' (List.mem_cons_of_mem _ h')
    have hnm1 : ∀ r' ∈ rest, ∀ it ∈ r'.items, ∃ i ∈ db1.items,
        (i.name == it.name) = true := by
      intro r' h' it hit'
      rw [hi1]
      exact hnm r' (List.mem_cons_of_mem _ h') it hit'
    obtain ⟨db', heq', hc', hi', hs'⟩ := ih db1 hcu1 hor1 hit1 hil1 hph1 hnm1
    refine ⟨db', ?_, by rw [hc', hc1], by rw [hi', hi1], by rw [hs', hs1]⟩
    simp only [importOrdersLoop, heq1]
    exact heq'

/-- C5 counterexample: importing a record whose customer phone already has
a Customer row in the store inserts a second row with that phone — two rows
result, not one.  The import's dedup consults only the records of the same
run, never existing rows. -/
theorem import_duplicates_existing_phone :
    storeWithAlice.customers.countP (fun c => c.phone == "5551234") = 1 ∧
    ((populate_database [⟨"5551234", "Alice", "2024-01-01", none, []⟩]
        storeWithAlice).2.customers.countP (fun c => c.phone == "5551234")) = 2 := by
  decide

/-- C5 amended: within a single import run into a provisioned store that
holds no Customer row with phone `p` and no Item row with name `n`,
importing records among which `p` occurs as a phone and `n` as an item name
produces exactly one Customer row with phone `p` and exactly one Item row
with name `n`: duplicates inside the batch are collapsed by the dicts keyed
on phone and name.  (Rows already in the store are not consulted — the
counterexample — hence the freshness hypotheses.) -/
theorem import_dedup_fresh_keys (db : DB) (records : List ImportRecord)
    (p n : String) (h : provisioned db)
    (hp : ∀ r ∈ db.customers, (r.phone == p) = false)
    (hn : ∀ r ∈ db.items, (r.name == n) = false)
    (hrp : records.any (fun r => r.phone == p) = true)
    (hrn : (records.flatMap (·.items)).any (fun it => it.name == n) = true) :
    (populate_database records db).2.customers.countP (fun r => r.phone == p) = 1 ∧
    (populate_database records db).2.items.countP (fun r => r.name == n) = 1 := by
  have hcc : hasCols db "customers" ["name", "phone"] = true := by
    rw [hasCols_eq_of_tableCols h.1]; decide
  obtain ⟨db1, heq1, hphones1, hsch1, hit1, hor1, hof1, hil1⟩ :=
    insertImportCustomers_ok (buildCustomersDict records) db hcc
  have hic1 : hasCols db1 "items" ["name", "price"] = true := by
    rw [hasCols_congr hsch1, hasCols_eq_of_tableCols h.2.1]; decide
  obtain ⟨db2, heq2, hnames2, hsch2, hcu2, hor2, hof2, hil2⟩ :=
    insertImportItems_ok (buildItemsDict records) db1 hic1
  have hsch2' : db2.schema = db.schema := by rw [hsch2, hsch1]
  have hcu : hasCols db2 "customers" ["id", "phone"] = true := by
    rw [hasCols_congr hsch2', hasCols_eq_of_tableCols h.1]; decide
  have hor : hasCols db2 "orders" ["timestamp", "cust_id", "notes"] = true := by
    rw [hasCols_congr hsch2', hasCols_eq_of_tableCols h.2.2.1]; decide
  have hit : hasCols db2 "items" ["id", "name"] = true := by
    rw [hasCols_congr hsch2', hasCols_eq_of_tableCols h.2.1]; decide
  have hil : hasCols db2 "item_list" ["order_id", "item_id"] = true := by
    rw [hasCols_congr hsch2', hasCols_eq_of_tableCols h.2.2.2]; decide
  have hph : ∀ r ∈ records, ∃ c ∈ db2.customers, (c.phone == r.phone) = true := by
    intro r hr
    have hany : (records.map (fun r => (r.phone, r.name))).any
        (fun kv => kv.1 == r.phone) = true :=
      List.any_eq_true.mpr
        ⟨(r.phone, r.name), List.mem_map_of_mem _ hr, by simp⟩
    have hkey : (buildCustomersDict records).countP (fun e => e.1 == r.phone) = 1 := by
      rw [buildCustomersDict, countP_buildDict, hany]
      rfl
    have hpos : 0 < (buildCustomersDict records).countP (fun e => e.1 == r.phone) := by
      rw [hkey]; omega
    obtain ⟨e, he, hbe⟩ := List.countP_pos_iff.mp hpos
    have hkeymem : e.1 ∈ (buildCustomersDict records).map (·.1) :=
      List.mem_map_of_mem _ he
    have hphmem : e.1 ∈ db2.customers.map (fun r => r.phone) := by
      rw [hcu2, hphones1]
      exact List.mem_append_right _ hkeymem
    obtain ⟨c, hc, hcpe⟩ := List.mem_map.mp hphmem
    exact ⟨c, hc, by rw [show c.phone = e.1 from hcpe]; exact hbe⟩
  have hnm : ∀ r ∈ records, ∀ it ∈ r.items, ∃ i ∈ db2.items,
      (i.name == it.name) = true := by
    intro r hr it hit'
    have hflat : it ∈ records.flatMap (·.items) := List.mem_flatMap.mpr ⟨r, hr, hit'⟩
    have hany : ((records.flatMap (·.items)).map (fun it => (it.name, it.price))).any
        (fun kv => kv.1 == it.name) = true :=
      List.any_eq_true.mpr
        ⟨(it.name, it.price), List.mem_map_of_mem _ hflat, by simp⟩
    have hkey : (buildItemsDict records).countP (fun e => e.1 == it.name) = 1 := by
      rw [buildItemsDict, countP_buildDict, hany]
      rfl
    have hpos : 0 < (buildItemsDict records).countP (fun e => e.1 == it.name) := by
      rw [hkey]; omega
    obtain ⟨e, he, hbe⟩ := List.countP_pos_iff.mp hpos
    have hkeymem : e.1 ∈ (buildItemsDict records).map (·.1) :=
      List.mem_map_of_mem _ he
    have hnmmem : e.1 ∈ db2.items.map (fun r => r.name) := by
      rw [hnames2]
      exact List.mem_append_right _ hkeymem
    obtain ⟨i, hi, hine⟩ := List.mem_map.mp hnmmem
    exact ⟨i, hi, by rw [show i.name = e.1 from hine]; exact hbe⟩
  obtain ⟨db3, heq3, hcu3, hit3, hsch3⟩ :=
    importOrdersLoop_ok records db2 hcu hor hit hil hph hnm
  have hpop : populate_database records db =
      (.ok "Database populated successfully.", db3) := by
    unfold populate_database
    rw [heq1]
    simp only [Except.bind]
    rw [heq2]
    simp only [Except.bind]
    rw [heq3]
  rw [hpop]
  constructor
  · calc db3.customers.countP (fun r => r.phone == p)
        = (db3.customers.map (fun r => r.phone)).countP (fun s => s == p) := by
          rw [List.countP_map]; rfl
      _ = ((db.customers.map (fun r => r.phone)) ++
           (buildCustomersDict records).map (·.1)).countP (fun s => s == p) := by
          rw [hcu3, hcu2, hphones1]
      _ = 0 + 1 := by
          rw [List.countP_append]
          congr 1
          · rw [List.countP_map]
            exact List.countP_eq_zero.mpr
              (fun x hx => by simp [Function.comp, hp x hx])
          · rw [List.countP_map]
            have hany : (records.map (fun r => (r.phone, r.name))).any
                (fun kv => kv.1 == p) = true := by
              obtain ⟨r, hr, hb⟩ := List.any_eq_true.mp hrp
              exact List.any_eq_true.mpr
                ⟨(r.phone, r.name), List.mem_map_of_mem _ hr, by simpa using hb⟩
            have : (buildCustomersDict records).countP (fun e => e.1 == p) = 1 := by
              rw [buildCustomersDict, countP_buildDict, hany]
              rfl
            exact this
      _ = 1 := by omega
  · calc db3.items.countP (fun r => r.name == n)
        = (db3.items.map (fun r => r.name)).countP (fun s => s == n) := by
          rw [List.countP_map]; rfl
      _ = ((db.items.map (fun r => r.name)) ++
           (buildItemsDict records).map (·.1)).countP (fun s => s == n) := by
          rw [hit3, hnames2, hit1]
      _ = 0 + 1 := by
          rw [List.countP_append]
          congr 1
          · rw [List.countP_map]
            exact List.countP_eq_zero.mpr
              (fun x hx => by simp [Function.comp, hn x hx])
          · rw [List.countP_map]
            have hany : ((records.flatMap (·.items)).map
                (fun it => (it.name, it.price))).any (fun kv => kv.1 == n) = true := by
              obtain ⟨it, hitm, hb⟩ := List.any_eq_true.mp hrn
              exact List.any_eq_true.mpr
                ⟨(it.name, it.price), List.mem_map_of_mem _ hitm, by simpa using hb⟩
            have : (buildItemsDict records).countP (fun e => e.1 == n) = 1 := by
              rw [buildItemsDict, countP_buildDict, hany]
              rfl
            exact this
      _ = 1 := by omega

/-- C8 counterexample: creating an Item with price −5 on a provisioned
store does not fail with a validation error: it succeeds and the row with
the negative price is written. -/
theorem negative_price_accepted_counterexample :
    (create_item ⟨"Widget", -5⟩ (initialize_schema emptyDB)).1 =
      .ok ⟨1, "Widget", -5⟩ ∧
    (create_item ⟨"Widget", -5⟩ (initialize_schema emptyDB)).2.items =
      [⟨1, "Widget", -5⟩] := by
  decide

/-! ### Witnesses instantiating the hypothesised theorems -/

/-- Witness for C9 at the empty store: the hypotheses of the
absent-tables clause hold there, and the contract's conclusions follow. -/
theorem initialize_schema_contract_witness :
    (tableCols emptyDB "customers" = none ∧ tableCols emptyDB "items" = none ∧
     tableCols emptyDB "orders" = none ∧ tableCols emptyDB "item_list" = none) ∧
    (initialize_schema emptyDB).schema = emptyDB.schema ++
      [("customers", customersCols), ("items", itemsCols),
       ("orders", ordersCols), ("item_list", itemListCols)] ∧
    initialize_schema (initialize_schema emptyDB) = initialize_schema emptyDB :=
  ⟨⟨by decide, by decide, by decide, by decide⟩,
   (initialize_schema_contract emptyDB).2.2.2.1 (by decide) (by decide)
     (by decide) (by decide),
   (initialize_schema_contract emptyDB).2.2.2.2⟩

/-- Witness for C6 on a concrete provisioned store. -/
theorem create_then_read_roundtrip_witness :
    provisioned storeWithAlice ∧
    ((create_customer ⟨"Bob", "5550000"⟩ storeWithAlice).1 =
        .ok ⟨nextCustomerId storeWithAlice, "Bob", "5550000"⟩ ∧
     (read_customer (nextCustomerId storeWithAlice)
        (create_customer ⟨"Bob", "5550000"⟩ storeWithAlice).2).1 =
        .ok ⟨nextCustomerId storeWithAlice, "Bob", "5550000"⟩ ∧
     (create_item ⟨"Gadget", 5⟩ storeWithAlice).1 =
        .ok ⟨nextItemId storeWithAlice, "Gadget", 5⟩ ∧
     (read_item (nextItemId storeWithAlice)
        (create_item ⟨"Gadget", 5⟩ storeWithAlice).2).1 =
        .ok ⟨nextItemId storeWithAlice, "Gadget", 5⟩) :=
  ⟨by decide,
   create_then_read_roundtrip storeWithAlice ⟨"Bob", "5550000"⟩ ⟨"Gadget", 5⟩ (by decide)⟩

/-- Witness for C7 on a concrete provisioned store and absent ids. -/
theorem delete_missing_id_notFound_witness :
    (provisioned storeWithAlice ∧
     (∀ r ∈ storeWithAlice.customers, r.id ≠ 42) ∧
     (∀ r ∈ storeWithAlice.items, r.id ≠ 7) ∧
     (∀ r ∈ storeWithAlice.orders, r.id ≠ 9) ∧
     (∀ r ∈ storeWithAlice.orders_flat, r.id ≠ 9)) ∧
    (delete_customer 42 storeWithAlice =
      (.error (.http 404 "Customer not found"), storeWithAlice) ∧
     delete_item 7 storeWithAlice =
      (.error (.http 404 "Item not found"), storeWithAlice) ∧
     delete_order 9 storeWithAlice =
      (.error (.http 404 "Order not found"), storeWithAlice)) :=
  ⟨⟨by decide, by decide, by decide, by decide, by decide⟩,
   delete_missing_id_notFound storeWithAlice 42 7 9 (by decide) (by decide)
     (by decide) (by decide) (by decide)⟩

/-- Witness for C10 on a concrete provisioned store, duplicating the
already-present phone. -/
theorem direct_create_inserts_duplicates_witness :
    provisioned storeWithAlice ∧
    ((create_customer ⟨"Alice", "5551234"⟩ storeWithAlice).1 =
        .ok ⟨nextCustomerId storeWithAlice, "Alice", "5551234"⟩ ∧
     (create_customer ⟨"Alice", "5551234"⟩
        (create_customer ⟨"Alice", "5551234"⟩ storeWithAlice).2).1 =
        .ok ⟨nextCustomerId storeWithAlice + 1, "Alice", "5551234"⟩ ∧
     ((create_customer ⟨"Alice", "5551234"⟩
        (create_customer ⟨"Alice", "5551234"⟩ storeWithAlice).2).2).customers =
        storeWithAlice.customers ++
          [⟨nextCustomerId storeWithAlice, "Alice", "5551234"⟩,
           ⟨nextCustomerId storeWithAlice + 1, "Alice", "5551234"⟩] ∧
     nextCustomerId storeWithAlice ≠ nextCustomerId storeWithAlice + 1 ∧
     (create_item ⟨"Widget", 10⟩ storeWithAlice).1 =
        .ok ⟨nextItemId storeWithAlice, "Widget", 10⟩ ∧
     (create_item ⟨"Widget", 10⟩
        (create_item ⟨"Widget", 10⟩ storeWithAlice).2).1 =
        .ok ⟨nextItemId storeWithAlice + 1, "Widget", 10⟩ ∧
     ((create_item ⟨"Widget", 10⟩
        (create_item ⟨"Widget", 10⟩ storeWithAlice).2).2).items =
        storeWithAlice.items ++
          [⟨nextItemId storeWithAlice, "Widget", 10⟩,
           ⟨nextItemId storeWithAlice + 1, "Widget", 10⟩] ∧
     nextItemId storeWithAlice ≠ nextItemId storeWithAlice + 1) :=
  ⟨by decide,
   direct_create_inserts_duplicates storeWithAlice ⟨"Alice", "5551234"⟩
     ⟨"Widget", 10⟩ (by decide)⟩

/-- Witness for the amended C8 on a store holding item 1, at price −5. -/
theorem negative_price_no_validation_witness :
    (provisioned dbWithCustomerAndItem ∧ (-5 : Rat) < 0) ∧
    (((create_item ⟨"Widget", -5⟩ dbWithCustomerAndItem).1 =
        .ok ⟨nextItemId dbWithCustomerAndItem, "Widget", -5⟩ ∧
      (create_item ⟨"Widget", -5⟩ dbWithCustomerAndItem).2.items =
        dbWithCustomerAndItem.items ++
          [⟨nextItemId dbWithCustomerAndItem, "Widget", -5⟩]) ∧
     (∀ r ∈ dbWithCustomerAndItem.items,
        (update_item r.id ⟨"Widget", -5⟩ dbWithCustomerAndItem).1 =
          .ok ⟨r.id, "Widget", -5⟩ ∧
        { r with name := "Widget", price := -5 } ∈
          (update_item r.id ⟨"Widget", -5⟩ dbWithCustomerAndItem).2.items)) :=
  ⟨⟨by decide, by decide⟩,
   negative_price_no_validation dbWithCustomerAndItem "Widget" (-5)
     (by decide) (by decide)⟩

/-- Witness for the amended C3 on a freshly provisioned store, with one
concrete order request, one read, and a one-entry batch. -/
theorem order_endpoints_always_storage_error_witness :
    provisioned (initialize_schema emptyDB) ∧
    create_order ⟨1, 1, 1⟩ (initialize_schema emptyDB) =
      (.error (.operationalError "orders: no such column: customer_id"),
       initialize_schema emptyDB) ∧
    read_order 1 (initialize_schema emptyDB) =
      (.error (.operationalError "orders: no such column: customer_id"),
       initialize_schema emptyDB) ∧
    (BulkOrder.mk [⟨1, 1, 1⟩]).items ≠ [] ∧
    create_bulk_order ⟨[⟨1, 1, 1⟩]⟩ (initialize_schema emptyDB) =
      (.error (.operationalError "orders: no such column: customer_id"),
       initialize_schema emptyDB) :=
  ⟨by decide,
   (order_endpoints_always_storage_error (initialize_schema emptyDB) (by decide)).1 ⟨1, 1, 1⟩,
   (order_endpoints_always_storage_error (initialize_schema emptyDB) (by decide)).2.1 1,
   by decide,
   (order_endpoints_always_storage_error (initialize_schema emptyDB) (by decide)).2.2
     ⟨[⟨1, 1, 1⟩]⟩ (by decide)⟩

/-- Witness for the amended C4 on the imported store, deleting order 1. -/
theorem delete_order_removes_only_order_row_witness :
    (provisioned importedStore ∧ (∃ r ∈ importedStore.orders, r.id = 1)) ∧
    ((delete_order 1 importedStore).1 = .ok "Order deleted successfully" ∧
     (∀ r ∈ (delete_order 1 importedStore).2.orders, r.id ≠ 1) ∧
     (delete_order 1 importedStore).2.item_list = importedStore.item_list ∧
     (delete_order 1 importedStore).2.customers = importedStore.customers ∧
     (delete_order 1 importedStore).2.items = importedStore.items) :=
  ⟨⟨by decide, by decide⟩,
   delete_order_removes_only_order_row importedStore 1 (by decide) (by decide)⟩

/-- Witness for the amended C5: importing two records sharing phone "555"
and item name "W" into a freshly provisioned store yields one Customer row
with that phone and one Item row with that name. -/
theorem import_dedup_fresh_keys_witness :
    (provisioned (initialize_schema emptyDB) ∧
     (∀ r ∈ (initialize_schema emptyDB).customers, (r.phone == "555") = false) ∧
     (∀ r ∈ (initialize_schema emptyDB).items, (r.name == "W") = false) ∧
     ([(⟨"555", "A", "t1", none, [⟨"W", 10⟩]⟩ : ImportRecord),
       ⟨"555", "B", "t2", none, [⟨"W", 10⟩]⟩].any (fun r => r.phone == "555")) = true ∧
     (([(⟨"555", "A", "t1", none, [⟨"W", 10⟩]⟩ : ImportRecord),
        ⟨"555", "B", "t2", none, [⟨"W", 10⟩]⟩].flatMap (·.items)).any
          (fun it => it.name == "W")) = true) ∧
    ((populate_database
        [⟨"555", "A", "t1", none, [⟨"W", 10⟩]⟩, ⟨"555", "B", "t2", none, [⟨"W", 10⟩]⟩]
        (initialize_schema emptyDB)).2.customers.countP
          (fun r => r.phone == "555") = 1 ∧
     (populate_database
        [⟨"555", "A", "t1", none, [⟨"W", 10⟩]⟩, ⟨"555", "B", "t2", none, [⟨"W", 10⟩]⟩]
        (initialize_schema emptyDB)).2.items.countP
          (fun r => r.name == "W") = 1) :=
  ⟨⟨by decide, by decide, by decide, by decide, by decide⟩,
   import_dedup_fresh_keys (initialize_schema emptyDB)
     [⟨"555", "A", "t1", none, [⟨"W", 10⟩]⟩, ⟨"555", "B", "t2", none, [⟨"W", 10⟩]⟩]
     "555" "W" (by decide) (by decide) (by decide) (by decide) (by decide)⟩
